import Mathlib

/-!
Shallow embedding of the barber-agent scheduling core
(`src/services/appointment_service.py`, `src/chains/agent.py`,
`src/services/notification_service.py`).

Timestamps are modelled as proleptic-Gregorian calendar values
`CalDT = (year, month, day, hour, minute)`; Python `datetime` seconds are
always zero in this code base (every stored value comes from
`strftime("%Y-%m-%d %H:%M:%S")` of minute-precision values), so minutes
suffice.  `toDayNumber` counts days since 0001-01-01, which was a Monday,
so the Python `datetime.weekday()` value (Monday = 0) is `toDayNumber % 7`.
-/

namespace Barber

/-- Gregorian leap-year rule (what Python `datetime` validates against). -/
def isLeap (y : Nat) : Bool :=
  (y % 4 == 0 && y % 100 != 0) || (y % 400 == 0)

def daysInMonth (y m : Nat) : Nat :=
  if m = 2 then (if isLeap y then 29 else 28)
  else if m = 4 ∨ m = 6 ∨ m = 9 ∨ m = 11 then 30
  else 31

/-- A Python `datetime` value (naive local time, minute precision). -/
structure CalDT where
  year : Nat
  month : Nat
  day : Nat
  hour : Nat
  minute : Nat
deriving DecidableEq, Repr

/-- Number of leap years strictly before year `y`. -/
def leapsBefore (y : Nat) : Nat :=
  (y - 1) / 4 - (y - 1) / 100 + (y - 1) / 400

/-- Days contributed by the full months before month `m` of year `y`. -/
def monthOffset (y m : Nat) : Nat :=
  (List.range (m - 1)).foldl (fun acc k => acc + daysInMonth y (k + 1)) 0

/-- Days since 0001-01-01 (a Monday); ignores the time-of-day fields. -/
def toDayNumber (c : CalDT) : Nat :=
  365 * (c.year - 1) + leapsBefore c.year + monthOffset c.year c.month + (c.day - 1)

/-- Python `datetime.weekday()`: Monday = 0 … Sunday = 6. -/
def weekdayOf (c : CalDT) : Nat := toDayNumber c % 7

/-- Total minutes on the time line; the embedding of `datetime` comparison
and subtraction (`total_seconds` is `60 *` this difference). -/
def toMin (c : CalDT) : Nat :=
  toDayNumber c * 1440 + c.hour * 60 + c.minute

/-- Python `dt.date()` as a midnight datetime. -/
def dateOf (c : CalDT) : CalDT := ⟨c.year, c.month, c.day, 0, 0⟩

def withTime (c : CalDT) (h mi : Nat) : CalDT := ⟨c.year, c.month, c.day, h, mi⟩

/-- Calendar successor day (used for `date + timedelta(days=1)` steps). -/
def nextDay (c : CalDT) : CalDT :=
  if c.day < daysInMonth c.year c.month then ⟨c.year, c.month, c.day + 1, c.hour, c.minute⟩
  else if c.month < 12 then ⟨c.year, c.month + 1, 1, c.hour, c.minute⟩
  else ⟨c.year + 1, 1, 1, c.hour, c.minute⟩

/-- Computes `c + timedelta(days=n)` on a valid calendar value. -/
def addDays : CalDT → Nat → CalDT
  | c, 0 => c
  | c, n + 1 => nextDay (addDays c n)

/-- Python `datetime(y, m, d, ...)` accepts exactly these dates. -/
def validDate (y m d : Nat) : Bool :=
  1 ≤ m && m ≤ 12 && 1 ≤ d && d ≤ daysInMonth y m

/-- Python `time(h, mi)` accepts exactly these values. -/
def validTime (h mi : Nat) : Bool := h < 24 && mi < 60

/-! Shop constants (`appointment_service.py` lines 46-49). -/

def OPENING_HOUR : Nat := 10
def CLOSING_HOUR : Nat := 18
def APPOINTMENT_DURATION : Nat := 30
/-- Monday … Saturday. -/
def WORKING_DAYS : List Nat := [0, 1, 2, 3, 4, 5]

/-- A stored appointment record (fields the scheduling logic reads; the
opaque id, service type and creation timestamp are not consulted by any
of the checks below). -/
structure Appt where
  phone : String
  start : CalDT
  recipient : String
deriving DecidableEq, Repr

/-! ### BusinessCalendar / AvailabilityEngine -/

/-- Embeds `is_valid_appointment_time` (appointment_service.py lines 301-319):
working day, business hours, at least one hour ahead of `now`,
minute on the half-hour grid. -/
def is_valid_appointment_time (now dt : CalDT) : Bool :=
  if !(WORKING_DAYS.contains (weekdayOf dt)) then false
  else if dt.hour < OPENING_HOUR || decide (dt.hour ≥ CLOSING_HOUR) then false
  else if toMin dt < toMin now + 60 then false
  else if !([0, 30].contains dt.minute) then false
  else true

/-- Embeds `is_during_business_hours` (lines 1097-1099): hour range only. -/
def is_during_business_hours (dt : CalDT) : Bool :=
  OPENING_HOUR ≤ dt.hour && dt.hour < CLOSING_HOUR

/-- Zero padding used by `strftime` two-digit fields. -/
def pad2 (n : Nat) : String :=
  if n < 10 then "0" ++ toString n else toString n

/-- Computes `%I`: the 12-hour clock value of an hour. -/
def hour12 (h : Nat) : Nat :=
  let r := h % 12
  if r = 0 then 12 else r

/-- Embeds `dt.strftime("%I:%M %p")`. -/
def fmtTime12 (h mi : Nat) : String :=
  pad2 (hour12 h) ++ ":" ++ pad2 mi ++ (if h < 12 then " AM" else " PM")

/-- All candidate slot datetimes of a day: each hour in
`range(OPENING_HOUR, CLOSING_HOUR)` with minute 0 and 30
(lines 364-374). -/
def allDaySlots (d : CalDT) : List CalDT :=
  ((List.range (CLOSING_HOUR - OPENING_HOUR)).map (fun k =>
    [⟨d.year, d.month, d.day, OPENING_HOUR + k, 0⟩,
     ⟨d.year, d.month, d.day, OPENING_HOUR + k, 30⟩])).flatten

/-- The per-slot future/lead-time condition of lines 375-378: the
target date lies beyond today, or the slot is more than one hour ahead. -/
def leadOk (now target s : CalDT) : Bool :=
  decide (toDayNumber target > toDayNumber (dateOf now)) ||
  decide (toMin s > toMin now + 60)

/-- Embeds `get_appointments_for_date`: the store narrowed to the target date
(lines 420-445; both the sheet and the mock path compare dates). -/
def apptsOn (target : CalDT) (appts : List Appt) : List Appt :=
  appts.filter (fun a => toDayNumber a.start == toDayNumber target)

/-- The per-slot conflict test of lines 395-406: the slot survives iff
no existing appointment starts within `APPOINTMENT_DURATION` minutes
(`abs((slot - appt).total_seconds()) < duration * 60`). -/
def slotFree (existing : List Appt) (s : CalDT) : Bool :=
  existing.all (fun a =>
    !(decide (((toMin s : Int) - (toMin a.start : Int)).natAbs * 60 <
      APPOINTMENT_DURATION * 60)))

/-- Core of `get_available_slots` (lines 351-414), before the final
`strftime("%I:%M %p")` formatting: working-day gate, future/lead-time
filter, early return when the date has no appointments, and otherwise
exclusion of every slot within `APPOINTMENT_DURATION` minutes of an
existing appointment on the target date.  `appts` plays the role of the
appointment store. -/
def availableSlotsCore (now target : CalDT) (appts : List Appt) : List CalDT :=
  if !(WORKING_DAYS.contains (weekdayOf target)) then []
  else
    let all_slots := (allDaySlots target).filter (leadOk now target)
    if (apptsOn target appts).isEmpty then all_slots
    else all_slots.filter (slotFree (apptsOn target appts))

/-- Embeds `get_available_slots` (lines 321-418).  The date-string front end
(ISO split, then `dateutil` fuzzy parse, lines 330-349) is represented by
its outcome `parsed`; `none` models the case where both parses fail, in
which the function returns `[]` (lines 347-349, 416-418). -/
def get_available_slots (now : CalDT) (parsed : Option CalDT) (appts : List Appt) :
    List String :=
  match parsed with
  | none => []
  | some t => (availableSlotsCore now (dateOf t) appts).map (fun s => fmtTime12 s.hour s.minute)

/-- Embeds `is_slot_available` (lines 1101-1109). -/
def is_slot_available (now dt : CalDT) (appts : List Appt) : Bool :=
  is_valid_appointment_time now dt &&
  (get_available_slots now (some dt) appts).contains (fmtTime12 dt.hour dt.minute)

/-! ### String machinery shared by the resolvers

The Python code dispatches on substring tests, `str.split()`, and a few
small regular expressions; these helpers embed exactly those operations
at character-list level. -/

/-- Leading-segment test on character lists. -/
def startsWithChars : List Char → List Char → Bool
  | [], _ => true
  | _ :: _, [] => false
  | a :: as, b :: bs => a == b && startsWithChars as bs

/-- Substring occurrence test (`pat in s` for Python strings). -/
def hasSubChars (pat : List Char) : List Char → Bool
  | [] => startsWithChars pat []
  | c :: rest => startsWithChars pat (c :: rest) || hasSubChars pat rest

/-- Python `pat in s`. -/
def containsStr (pat s : String) : Bool := hasSubChars pat.toList s.toList

/-- Numeric value of a digit run. -/
def digitsVal (l : List Char) : Nat :=
  l.foldl (fun a c => a * 10 + (c.toNat - 48)) 0

/-- Python `s.lower()` (character-wise, which is all these ASCII inputs
need). -/
def pyLower (s : String) : String := String.mk (s.toList.map Char.toLower)

/-- Python `s.startswith(pat)`. -/
def pyStartsWith (s pat : String) : Bool := startsWithChars pat.toList s.toList

def isSpaceChar (c : Char) : Bool :=
  c == ' ' || c == '\t' || c == '\n' || c == '\r'

/-- Python `s.strip()`. -/
def pyTrim (s : String) : String :=
  String.mk (((s.toList.dropWhile isSpaceChar).reverse.dropWhile isSpaceChar).reverse)

/-- Python `s.take`-style truncation (`day[:3]`). -/
def pyTake (s : String) (n : Nat) : String := String.mk (s.toList.take n)

/-- Python `s.replace(pat, "")`: delete every leftmost, non-overlapping
occurrence of `pat` (all `replace` calls in these functions delete). -/
def deleteAux (pat : List Char) : Nat → List Char → List Char
  | 0, _ => []
  | _, [] => []
  | fuel + 1, c :: rest =>
    if startsWithChars pat (c :: rest) then
      deleteAux pat fuel (rest.drop (pat.length - 1))
    else c :: deleteAux pat fuel rest

def pyDelete (s pat : String) : String :=
  String.mk (deleteAux pat.toList s.toList.length s.toList)

/-- Python `s.split(pat)`. -/
def splitOnAux (pat : List Char) : Nat → List Char → List Char → List (List Char)
  | 0, acc, _ => [acc.reverse]
  | _, acc, [] => [acc.reverse]
  | fuel + 1, acc, c :: rest =>
    if startsWithChars pat (c :: rest) then
      acc.reverse :: splitOnAux pat fuel [] (rest.drop (pat.length - 1))
    else splitOnAux pat fuel (c :: acc) rest

def pySplitOn (s pat : String) : List String :=
  (splitOnAux pat.toList s.toList.length [] s.toList).map String.mk

/-- Python `" ".join(parts)`-style joining. -/
def pyJoin (sep : String) : List String → String
  | [] => ""
  | [w] => w
  | w :: rest => w ++ sep ++ pyJoin sep rest

/-- Python `s.split()`: split on whitespace runs, dropping empties. -/
def wordsAux : List Char → List Char → List (List Char)
  | acc, [] => if acc.isEmpty then [] else [acc.reverse]
  | acc, c :: rest =>
    if isSpaceChar c then
      (if acc.isEmpty then wordsAux [] rest else acc.reverse :: wordsAux [] rest)
    else wordsAux (c :: acc) rest

def pywords (s : String) : List String := (wordsAux [] s.toList).map String.mk

/-- Python `int(w)` for a digit token: `none` models `ValueError` (and
the negative case, where the later `time(...)` constructor always
raises, producing the same `None` overall). -/
def pyToNat (s : String) : Option Nat :=
  if !s.toList.isEmpty && s.toList.all Char.isDigit then some (digitsVal s.toList)
  else none

def pyIntNat (w : String) : Option Nat := pyToNat (pyTrim w)

/-- Python `w.isdigit()` for a split token. -/
def isDigitWord (w : String) : Bool :=
  !(w == "") && w.toList.all Char.isDigit

/-! ### BookingCoordinator (`book_appointment`, lines 618-790) -/

/-- The distinct return shapes of `book_appointment`; the user-facing
message text is abstracted to its kind, keeping the data the message
embeds (the resolved datetime, rendered through the long weekday-month
`strftime` format). -/
inductive BookStatus where
  | unparseable
  | outsideHours
  | inPast
  | needsConfirmation (resolved : CalDT)
  | slotUnavailable (resolved : CalDT)
  | booked (resolved : CalDT)
deriving DecidableEq, Repr

/-- Result of one `book_appointment` call together with the side effects
it performed: the customer-record write (`save_customer_info`, line 633),
the appointment insert (`book_appointment_slot`, line 747), reminder
scheduling (line 753) and the two notifications (lines 756, 763). -/
structure BookOutcome where
  status : BookStatus
  customerSaved : Bool
  inserted : Option Appt
  remindersScheduled : Bool
  confirmationSent : Bool
  barberNotified : Bool
deriving DecidableEq, Repr

/-- Embeds `book_appointment(phone_number, entities)` (lines 618-790).
`dtOpt` is the outcome of the datetime-entity resolution of lines
641-658 (ISO `strptime`, falling back to `parse_datetime`; `none` when
neither produces a datetime).  `appts` is the appointment store.
Step order follows the source: customer-name save, parse gate,
business-hours gate, past gate, confirmation gate, then the conflict
check — which is skipped whenever the lowercased recipient differs
from "self" —
then commit with reminders and notifications. -/
def book_appointment (now : CalDT) (phone : String) (dtOpt : Option CalDT)
    (recipient : String) (confirmed : Bool) (customerName : String)
    (appts : List Appt) : BookOutcome :=
  let saved := !(customerName == "")
  match dtOpt with
  | none => ⟨.unparseable, saved, none, false, false, false⟩
  | some dt =>
    if !(is_during_business_hours dt) then ⟨.outsideHours, saved, none, false, false, false⟩
    else if toMin dt < toMin now then ⟨.inPast, saved, none, false, false, false⟩
    else if !confirmed then ⟨.needsConfirmation dt, saved, none, false, false, false⟩
    else if pyLower recipient == "self" && !(is_slot_available now dt appts) then
      ⟨.slotUnavailable dt, saved, none, false, false, false⟩
    else
      ⟨.booked dt, saved, some ⟨phone, dt, recipient⟩, true, true, true⟩

/-! ### Appointment-cap tool (`agent.py`, `count_user_appointments`,
lines 441-486) -/

inductive CapReport where
  | noAppointments
  | limitReached (count : Nat)
  | belowLimit (count : Nat)
deriving DecidableEq, Repr

/-- Embeds `count_user_appointments`: counts the stored appointments of the
customer
(`get_upcoming_appointments_raw` returns every record for the phone) and
reports `LIMIT REACHED` once the count is 10 or more.  This tool is the
only place the 10-appointment cap appears; `book_appointment` itself
never consults it. -/
def count_user_appointments (phone : String) (appts : List Appt) : CapReport :=
  let mine := appts.filter (fun a => a.phone == phone)
  if mine.isEmpty then .noAppointments
  else if 10 ≤ mine.length then .limitReached mine.length
  else .belowLimit mine.length

/-! ### ReminderScheduler (`notification_service.py`,
`schedule_reminders`, lines 129-211) -/

inductive RemKind where
  | r24h
  | r1h
deriving DecidableEq, Repr

/-- A scheduled APScheduler job.  Its id string is
`f"reminder_{kind}_{to_number}_{int(appointment_time.timestamp())}"`,
which determines and is determined by `(kind, phone, apptTime)`
(the timestamp suffix is the digits after the last underscore), so the
id is modelled structurally by those three fields.  `runAt` is the
job field `run_date`.  Times are minutes on the time line. -/
structure RemJob where
  kind : RemKind
  phone : String
  apptTime : Int
  runAt : Int
deriving DecidableEq, Repr

/-- One reminder block of `schedule_reminders`: if the fire time is in
the future, drop any job with the same id and append the new job
(the source both iterates `scheduler.get_jobs()` removing id matches and
passes `replace_existing=True`); otherwise leave the jobs untouched. -/
def putReminder (cond : Bool) (j : RemJob) (jobs : List RemJob) : List RemJob :=
  if cond then
    (jobs.filter (fun x =>
      !(x.kind == j.kind && x.phone == j.phone && x.apptTime == j.apptTime))) ++ [j]
  else jobs

/-- Embeds `schedule_reminders(to_number, appointment_time)` acting on the
job list of the scheduler: the 24-hour block then the 1-hour block. -/
def schedule_reminders (now : Int) (phone : String) (t : Int) (jobs : List RemJob) :
    List RemJob :=
  putReminder (t - 60 > now) ⟨.r1h, phone, t, t - 60⟩
    (putReminder (t - 1440 > now) ⟨.r24h, phone, t, t - 1440⟩ jobs)

/-- The weekday-name and month-name tables of both resolvers. -/
def dayNames : List String :=
  ["monday", "tuesday", "wednesday", "thursday", "friday", "saturday", "sunday"]

def monthNames : List String :=
  ["january", "february", "march", "april", "may", "june", "july",
   "august", "september", "october", "november", "december"]

/-- Python `re.search` of a digit-run pattern: first maximal digit run. -/
def firstDigitRun : List Char → Option (List Char)
  | [] => none
  | c :: rest =>
    if c.isDigit then some (c :: rest.takeWhile Char.isDigit)
    else firstDigitRun rest

def firstNumber (s : String) : Option Nat :=
  (firstDigitRun s.toList).map digitsVal

/-- am/pm adjustment shared by every time branch:
`pm and hour < 12 → +12`, `am and hour == 12 → 0`.
`some true` is pm, `some false` is am. -/
def adjHour (h : Nat) : Option Bool → Nat
  | some true => if h < 12 then h + 12 else h
  | some false => if h = 12 then 0 else h
  | none => h

/-- Python `re.search` of the hour-minute-ampm pattern: first digit run as
the hour, an optional `:MM`, optional whitespace, optional am/pm. -/
def timeSearchAux : List Char → Option (Nat × Nat × Option Bool)
  | [] => none
  | c :: rest =>
    if c.isDigit then
      let hv := digitsVal (c :: rest.takeWhile Char.isDigit)
      let r1 := rest.dropWhile Char.isDigit
      let (mv, r2) :=
        match r1 with
        | ':' :: t =>
          let mrun := t.takeWhile Char.isDigit
          if mrun.isEmpty then (0, r1) else (digitsVal mrun, t.dropWhile Char.isDigit)
        | _ => (0, r1)
      let r3 := r2.dropWhile (fun ch => ch == ' ' || ch == '\t')
      let ap : Option Bool :=
        match r3 with
        | 'a' :: 'm' :: _ => some false
        | 'p' :: 'm' :: _ => some true
        | _ => none
      some (hv, mv, ap)
    else timeSearchAux rest

def timeSearch (s : String) : Option (Nat × Nat × Option Bool) :=
  timeSearchAux s.toList

/-- Python `re.search` of the hour-ampm pattern (weekday-branch time fallback,
no minutes group). -/
def simpleTimeAux : List Char → Option (Nat × Option Bool)
  | [] => none
  | c :: rest =>
    if c.isDigit then
      let hv := digitsVal (c :: rest.takeWhile Char.isDigit)
      let r1 := (rest.dropWhile Char.isDigit).dropWhile (fun ch => ch == ' ' || ch == '\t')
      let ap : Option Bool :=
        match r1 with
        | 'a' :: 'm' :: _ => some false
        | 'p' :: 'm' :: _ => some true
        | _ => none
      some (hv, ap)
    else simpleTimeAux rest

def simpleTimeSearch (s : String) : Option (Nat × Option Bool) :=
  simpleTimeAux s.toList

/-! ### `calculate_date` (`agent.py`, lines 330-439)

The tool resolves a natural-language date expression and returns
`calculated_date.strftime("%Y-%m-%d")`.  The embedding returns the day
number of that date (the formatting is an injective rendering of
exactly this value, carrying no further information). -/

/-- First `"in"` token followed by a digit token (`agent.py` lines
353-360 and 415-427). -/
def findInDays : List String → Option Nat
  | [] => none
  | [_] => none
  | a :: b :: rest =>
    if a == "in" && isDigitWord b then pyToNat b
    else findInDays (b :: rest)

/-- Computes `days_until = (i - now.weekday()) % 7`, promoted to 7 when 0, for the
`"next <weekday>"` branches of `agent.py` (lines 97-105, 268-275,
363-372). -/
def nextOffset (i w : Nat) : Nat :=
  let d := (i + 7 - w % 7) % 7
  if d = 0 then 7 else d

/-- Embeds `calculate_date(date_expression)` with the current time as an
explicit parameter; returns the day number of the resolved date. -/
def calculate_date (now : CalDT) (expr : String) : Nat :=
  let s := pyLower expr
  let today := toDayNumber (dateOf now)
  let result : Option Nat :=
    if s == "tomorrow" then some (today + 1)
    else if s == "today" then some today
    else if containsStr "in" s && containsStr "days" s then
      (findInDays (pywords s)).map (fun n => today + n)
    else if pyStartsWith s "next " then
      match dayNames.findIdx? (fun d => containsStr d s) with
      | some i => some (today + nextOffset i (today % 7))
      | none => none
    else
      let fromMonth : Option Nat :=
        match monthNames.findIdx? (fun m => containsStr m s) with
        | some mi =>
          match firstNumber s with
          | some d =>
            let y := now.year
            if validDate y (mi + 1) d then
              -- `datetime(year, month_index, day)`; if before `now`, the
              -- code retries with year+1 but keeps the past date when that
              -- constructor raises (Feb 29), since the assignment never
              -- happens inside the caught exception.
              if toMin ⟨y, mi + 1, d, 0, 0⟩ < toMin now then
                if validDate (y + 1) (mi + 1) d then
                  some (toDayNumber ⟨y + 1, mi + 1, d, 0, 0⟩)
                else some (toDayNumber ⟨y, mi + 1, d, 0, 0⟩)
              else some (toDayNumber ⟨y, mi + 1, d, 0, 0⟩)
            else none
          | none => none
        | none => none
      match fromMonth with
      | some v => some v
      | none =>
        -- `"<weekday> in <N> days"` block (lines 409-429).  Because it
        -- lives in the `else` of the `elif "in" … and "days" …` chain,
        -- its own `"in" and "days"` condition can never hold here; it is
        -- kept for faithfulness.
        if containsStr "in" s && containsStr "days" s then
          match (dayNames.filter (fun d => containsStr d s)).getLast?,
                findInDays (pywords s) with
          | some dname, some n =>
            let target := today + n
            some (target + (dayNames.indexOf dname + 7 - target % 7) % 7)
          | _, _ => none
        else none
  match result with
  | some v => v
  | none => today + 1

/-! ### `parse_datetime` (`appointment_service.py`, lines 792-1095)

Regular-expression fragments of the source, embedded at character level
with the backtracking behaviour of the patterns involved. -/

/-- Matches `\d{1,2}` (greedy, nothing required after it). -/
def grabDay2 : List Char → Option (Nat × List Char)
  | d1 :: d2 :: rest =>
    if d1.isDigit then
      if d2.isDigit then some (digitsVal [d1, d2], rest)
      else some (digitsVal [d1], d2 :: rest)
    else none
  | [d1] => if d1.isDigit then some (digitsVal [d1], []) else none
  | [] => none

/-- Matches a one-or-two-digit group followed by a dash, with the regex
backtracking (two digits must be
followed by `-`; otherwise one digit followed by `-`). -/
def grabMonthDash : List Char → Option (Nat × List Char)
  | m1 :: m2 :: rest =>
    if m1.isDigit then
      if m2.isDigit then
        match rest with
        | '-' :: r3 => some (digitsVal [m1, m2], r3)
        | _ => none
      else if m2 == '-' then some (digitsVal [m1], rest)
      else none
    else none
  | _ => none

/-- Python `re.match` of the ISO date pattern (line 836),
anchored at the start; returns year, month, day and leftover. -/
def matchIsoAt : List Char → Option (Nat × Nat × Nat × List Char)
  | a :: b :: c :: d :: e :: rest =>
    if a.isDigit && b.isDigit && c.isDigit && d.isDigit && e == '-' then
      match grabMonthDash rest with
      | some (m, r2) =>
        match grabDay2 r2 with
        | some (dd, r3) => some (digitsVal [a, b, c, d], m, dd, r3)
        | none => none
      | none => none
    else none
  | _ => none

/-- Python `re.sub` of the ISO date pattern with empty replacement: delete every
(leftmost, non-overlapping) match.  Fuel is the list length; each step
consumes at least one character, so the fuel never runs out first. -/
def removeIsoAux : Nat → List Char → List Char
  | 0, _ => []
  | _, [] => []
  | fuel + 1, c :: rest =>
    match matchIsoAt (c :: rest) with
    | some (_, _, _, after) => removeIsoAux fuel after
    | none => c :: removeIsoAux fuel rest

def removeIso (l : List Char) : List Char := removeIsoAux l.length l

def isSep (c : Char) : Bool := c == '/' || c == '-'

/-- Matches `\d{1,2}` followed by a slash-or-dash separator, with
backtracking; first piece of the numeric-date pattern of line 960
(`\d{1,2}`, separator, `\d{1,2}`, optional separator + `\d{2,4}`). -/
def grab12Sep : List Char → Option (Nat × List Char)
  | a :: b :: rest =>
    if a.isDigit then
      if b.isDigit then
        match rest with
        | s :: r2 => if isSep s then some (digitsVal [a, b], r2) else none
        | [] => none
      else if isSep b then some (digitsVal [a], rest)
      else none
    else none
  | _ => none

/-- The optional year group: a slash-or-dash separator followed by
`\d{2,4}` (greedy, needs at least two digits; skipped when absent). -/
def grabYearOpt : List Char → Option (Nat × List Char)
  | s :: rest =>
    if isSep s then
      let run := (rest.takeWhile Char.isDigit).take 4
      if run.length ≥ 2 then some (digitsVal run, rest.drop run.length) else none
    else none
  | [] => none

/-- The numeric-date pattern matched at the head of the list. -/
def matchMDAt (l : List Char) : Option (Nat × Nat × Option Nat × List Char) :=
  match grab12Sep l with
  | none => none
  | some (m, r1) =>
    match grabDay2 r1 with
    | none => none
    | some (d, r2) =>
      match grabYearOpt r2 with
      | some (y, r3) => some (m, d, some y, r3)
      | none => some (m, d, none, r2)

/-- Python `re.search` of the numeric-date pattern: leftmost match. -/
def mdSearchAux : List Char → Option (Nat × Nat × Option Nat)
  | [] => none
  | c :: rest =>
    match matchMDAt (c :: rest) with
    | some (m, d, y, _) => some (m, d, y)
    | none => mdSearchAux rest

/-- Python `re.sub` of the numeric-date pattern (line 980). -/
def removeMDAux : Nat → List Char → List Char
  | 0, _ => []
  | _, [] => []
  | fuel + 1, c :: rest =>
    match matchMDAt (c :: rest) with
    | some (_, _, _, after) => removeMDAux fuel after
    | none => c :: removeMDAux fuel rest

def removeMD (l : List Char) : List Char := removeMDAux l.length l

/-- Computes `timedelta.days` of `a - b` (floor division, Python semantics). -/
def tdDays (a b : CalDT) : Int :=
  Int.fdiv ((toMin a : Int) - (toMin b : Int)) 1440

/-- Year correction of the dateutil-fallback branch (lines 1022-1033):
a parsed year further than one year from the current year is forced to
the current year; `replace(year=…)` raising on Feb 29 falls back to
Feb 28 only when `current_year % 4 != 0`, and otherwise leaves the
parsed value untouched. -/
def fixYear (now p : CalDT) : CalDT :=
  if ((p.year : Int) - (now.year : Int)).natAbs > 1 then
    if p.day ≤ daysInMonth now.year p.month then
      ⟨now.year, p.month, p.day, p.hour, p.minute⟩
    else if p.month = 2 ∧ p.day = 29 ∧ ¬(now.year % 4 = 0) then
      ⟨now.year, 2, 28, p.hour, p.minute⟩
    else p
  else p

/-- The hard-coded month-length table of lines 1044 and 1080 (leap rule
approximated by `% 4` in the source). -/
def maxDayList (y : Nat) : List Nat :=
  [31, if y % 4 = 0 then 29 else 28, 31, 30, 31, 30, 31, 31, 30, 31, 30, 31]

/-- Month correction of the dateutil-fallback branch (lines 1036-1048):
a month further than three from the current month — unless explained by
a December/January wrap — is forced to the current month with the day
clamped; a raising `replace` is swallowed, leaving `p` unchanged. -/
def fixMonth (now p : CalDT) : CalDT :=
  if ((p.month : Int) - (now.month : Int)).natAbs > 3 then
    if ¬((now.month = 12 ∧ p.month ≤ 2) ∨ (now.month ≤ 2 ∧ p.month = 12)) then
      let d := min p.day ((maxDayList now.year).getD (now.month - 1) 31)
      if d ≤ daysInMonth p.year now.month then
        ⟨p.year, now.month, d, p.hour, p.minute⟩
      else p
    else p
  else p

/-- Noon default of lines 1051-1053. -/
def fixNoon (s : String) (p : CalDT) : CalDT :=
  if p.hour = 0 ∧ p.minute = 0 ∧ ¬(containsStr "am" s = true) ∧ ¬(containsStr "pm" s = true) then
    withTime p 12 0
  else p

/-- Past correction of lines 1056-1082.  A same-month-and-day earlier
time moves to tomorrow; a past date within the current year moves to the
same day next month (year-wrapping from December), clamped by the `% 4`
table; the un-guarded clamped `replace` can still raise (Feb 29 of a
`% 4` year that is not leap), which propagates to the outer handler and
yields `None`. -/
def fixPast (now p : CalDT) : Option CalDT :=
  if toMin p < toMin now then
    if p.month = now.month ∧ p.day = now.day then
      if p.hour < now.hour ∨ (p.hour = now.hour ∧ p.minute < now.minute) then
        some (withTime (addDays (dateOf now) 1) p.hour p.minute)
      else some p
    else if p.year = now.year then
      if p.month < now.month ∨ (p.month = now.month ∧ p.day < now.day) then
        let nm0 := now.month + 1
        let ny : Nat × Nat := if nm0 > 12 then (now.year + 1, 1) else (now.year, nm0)
        if p.day ≤ daysInMonth ny.1 ny.2 then
          some ⟨ny.1, ny.2, p.day, p.hour, p.minute⟩
        else
          let lastd := (maxDayList ny.1).getD (ny.2 - 1) 31
          if min p.day lastd ≤ daysInMonth ny.1 ny.2 then
            some ⟨ny.1, ny.2, min p.day lastd, p.hour, p.minute⟩
          else none
      else some p
    else some p
  else some p

/-- The whole correction pipeline applied to a dateutil fuzzy-parse
result (lines 1022-1085). -/
def dateutilCorrect (now : CalDT) (s : String) (p : CalDT) : Option CalDT :=
  fixPast now (fixNoon s (fixMonth now (fixYear now p)))

/-- Embeds `parse_datetime(datetime_str)` (lines 792-1095), with the current
time as an explicit parameter.  `fuzzy` is the result of the external
`dateutil.parser.parse(datetime_str, fuzzy=True)` call of the final
branch; `none` models the parser raising.  `none` overall models the
function returning `None` (including every `datetime`/`time`
constructor `ValueError` caught by the surrounding handlers). -/
def parse_datetime (fuzzy : Option CalDT) (now : CalDT) (input : String) : Option CalDT :=
  let s := pyLower input
  -- "tomorrow" branch (lines 806-833)
  if containsStr "tomorrow" s then
    let base := addDays (dateOf now) 1
    let tp0 := pyTrim (pyDelete s "tomorrow")
    let tp := if containsStr "at" tp0 then pyTrim ((pySplitOn tp0 "at").getD 1 "") else tp0
    if ¬(tp = "") then
      match timeSearch tp with
      | some (h0, mv, ap) =>
        let h := adjHour h0 ap
        if validTime h mv then some (withTime base h mv) else none
      | none => some (withTime base 12 0)
    else some (withTime base 12 0)
  else
  -- ISO branch (lines 836-866); no year correction of any kind
  match matchIsoAt s.toList with
  | some (y, m, d, _) =>
    let tp0 := pyTrim (String.mk (removeIso s.toList))
    let tp := if containsStr "at" tp0 then pyTrim ((pySplitOn tp0 "at").getD 1 "") else tp0
    if tp = "" then (if validDate y m d then some ⟨y, m, d, 12, 0⟩ else none)
    else
      match timeSearch tp with
      | some (h0, mv, ap) =>
        let h := adjHour h0 ap
        if validDate y m d && validTime h mv then some ⟨y, m, d, h, mv⟩ else none
      | none => if validDate y m d then some ⟨y, m, d, 12, 0⟩ else none
  | none =>
  -- weekday branch (lines 869-957)
  match dayNames.findIdx? (fun d => containsStr d s || (pywords s).contains (pyTake d 3)) with
  | some i =>
    let dname := dayNames.getD i ""
    let w := weekdayOf now
    let da0 := (i + 7 - w) % 7
    let da1 :=
      if containsStr "this" s then
        (if da0 = 0 ∧ now.hour ≥ CLOSING_HOUR then 7 else da0)
      else if da0 = 0 then (if now.hour ≥ CLOSING_HOUR then 7 else da0)
      else da0
    let da := if containsStr "next" s then (if da1 < 7 then da1 + 7 else da1) else da1
    let target := addDays (dateOf now) da
    let kept := (pywords s).filter (fun word =>
      !([dname, pyTake dname 3, "next", "this", "on", "the"].contains word) &&
      !(containsStr "at" word) && !(["am", "pm"].contains word))
    let time_str := pyTrim (pyDelete (pyJoin " " kept) "at")
    if containsStr ":" time_str then
      match pySplitOn time_str ":" with
      | [hs, ms] =>
        match pyIntNat hs with
        | some h0 =>
          let h := if containsStr "pm" ms ∧ h0 < 12 then h0 + 12 else h0
          match pyIntNat (pyDelete (pyDelete ms "am") "pm") with
          | some mv => if validTime h mv then some (withTime target h mv) else none
          | none => none
        | none => none
      | _ => none
    else if ¬(time_str = "") then
      match simpleTimeSearch time_str with
      | some (h0, ap) =>
        let h := adjHour h0 ap
        if validTime h 0 then some (withTime target h 0) else none
      | none => some (withTime target 12 0)
    else some (withTime target 12 0)
  | none =>
  -- numeric M/D pattern branch (lines 959-1012)
  match mdSearchAux s.toList with
  | some (m0, d0, yOpt) =>
    let y1 := match yOpt with | some y => y | none => now.year
    let y2 := if y1 < 100 then y1 + 2000 else y1
    let md : Nat × Nat := if m0 > 12 then (d0, m0) else (m0, d0)
    let tp := pyTrim (String.mk (removeMD s.toList))
    let hm : Nat × Nat :=
      if ¬(tp = "") then
        match timeSearch tp with
        | some (h0, mv, ap) => (adjHour h0 ap, mv)
        | none => (12, 0)
      else (12, 0)
    if validDate y2 md.1 md.2 && validTime hm.1 hm.2 then
      let p : CalDT := ⟨y2, md.1, md.2, hm.1, hm.2⟩
      if toMin p < toMin now ∧ (tdDays p now).natAbs > 1 then
        if validDate (now.year + 1) md.1 md.2 then
          some ⟨now.year + 1, md.1, md.2, hm.1, hm.2⟩
        else none
      else some p
    else none
  | none =>
  -- dateutil fuzzy fallback (lines 1014-1091)
  match fuzzy with
  | none => none
  | some p => dateutilCorrect now s p

/-! ## Claims -/

/-- Claim C1: for every date, current time and appointment store, the
slot list computed by the availability computation contains no
timestamp whose absolute time difference (in seconds) from the start of
any existing appointment on that date is less than the appointment
duration (30 minutes). -/
theorem C1_availability_excludes_conflicts
    (now target : CalDT) (appts : List Appt) (s : CalDT) (a : Appt)
    (hs : s ∈ availableSlotsCore now target appts) (ha : a ∈ appts)
    (hd : toDayNumber a.start = toDayNumber target) :
    ¬(((toMin s : Int) - (toMin a.start : Int)).natAbs * 60 <
      APPOINTMENT_DURATION * 60) := by
  have haE : a ∈ apptsOn target appts :=
    List.mem_filter.mpr ⟨ha, by simp [hd]⟩
  unfold availableSlotsCore at hs
  by_cases hw : (!(WORKING_DAYS.contains (weekdayOf target))) = true
  · rw [if_pos hw] at hs
    exact absurd hs (List.not_mem_nil s)
  · rw [if_neg hw] at hs
    by_cases he : (apptsOn target appts).isEmpty = true
    · rw [List.isEmpty_iff] at he
      rw [he] at haE
      exact absurd haE (List.not_mem_nil a)
    · simp only [he, if_false, Bool.false_eq_true, if_neg] at hs
      have hfree : slotFree (apptsOn target appts) s = true :=
        (List.mem_filter.mp hs).2
      have := List.all_eq_true.mp hfree a haE
      simpa using this

/-- Witness for C1 at a concrete store: an appointment at 11:00 on the
target day, and the 11:30 slot (which survives the filter). -/
theorem C1_witness :
    ¬(((toMin ⟨2025, 6, 3, 11, 30⟩ : Int) -
        (toMin (⟨"q", ⟨2025, 6, 3, 11, 0⟩, "self"⟩ : Appt).start : Int)).natAbs * 60 <
      APPOINTMENT_DURATION * 60) :=
  C1_availability_excludes_conflicts ⟨2025, 6, 2, 9, 0⟩ ⟨2025, 6, 3, 0, 0⟩
    [⟨"q", ⟨2025, 6, 3, 11, 0⟩, "self"⟩] ⟨2025, 6, 3, 11, 30⟩
    ⟨"q", ⟨2025, 6, 3, 11, 0⟩, "self"⟩ (by decide) (by decide) (by decide)

/-- Claim C10: the availability query is total and silent about errors:
an unparseable date string (`parsed = none`) yields `[]`, and a date
string resolving to a Sunday (`weekday = 6`, the only non-working day)
also yields `[]`. -/
theorem C10_availability_total_and_empty_on_sunday :
    (∀ (now : CalDT) (appts : List Appt),
      get_available_slots now none appts = []) ∧
    (∀ (now t : CalDT) (appts : List Appt), weekdayOf (dateOf t) = 6 →
      get_available_slots now (some t) appts = []) := by
  refine ⟨fun now appts => rfl, fun now t appts h6 => ?_⟩
  simp only [get_available_slots, availableSlotsCore, h6]
  rfl

/-- Witness for C10 at a concrete Sunday (2025-06-08). -/
theorem C10_witness :
    get_available_slots ⟨2025, 6, 2, 9, 0⟩ (some ⟨2025, 6, 8, 14, 0⟩) [] = [] :=
  C10_availability_total_and_empty_on_sunday.2 ⟨2025, 6, 2, 9, 0⟩ ⟨2025, 6, 8, 14, 0⟩
    [] (by decide)

/-- A fixed reference time used by the concrete scenarios:
Monday 2025-06-02, 09:00 (the reference used by the examples in the spec). -/
def nowMon : CalDT := ⟨2025, 6, 2, 9, 0⟩

/-- Claim C2 fails on the code: a confirmed booking for a non-"self"
recipient is committed on Sunday 2025-06-08 at 10:15 — a non-working
day, off the half-hour grid — because the only checks on that path are
the hour range and the past check. -/
theorem C2_counterexample :
    (book_appointment nowMon "p" (some ⟨2025, 6, 8, 10, 15⟩) "brother" true ""
        []).inserted = some ⟨"p", ⟨2025, 6, 8, 10, 15⟩, "brother"⟩ ∧
    ¬(WORKING_DAYS.contains (weekdayOf ⟨2025, 6, 8, 10, 15⟩) = true) ∧
    ¬((⟨2025, 6, 8, 10, 15⟩ : CalDT).minute = 0 ∨
      (⟨2025, 6, 8, 10, 15⟩ : CalDT).minute = 30) := by
  decide

/-- Claim C2, amended: every committed appointment has its hour in
`[OPENING_HOUR, CLOSING_HOUR)` and is not before the current time; the
full business-calendar validity (working day, half-hour grid, one-hour
lead) is guaranteed only when the recipient is "self". -/
theorem C2_amended_commit_validity
    (now : CalDT) (phone : String) (dtOpt : Option CalDT) (recipient : String)
    (confirmed : Bool) (customerName : String) (appts : List Appt) (a : Appt)
    (h : (book_appointment now phone dtOpt recipient confirmed customerName
          appts).inserted = some a) :
    (OPENING_HOUR ≤ a.start.hour ∧ a.start.hour < CLOSING_HOUR ∧
      toMin now ≤ toMin a.start) ∧
    (pyLower recipient = "self" → is_valid_appointment_time now a.start = true) := by
  cases dtOpt with
  | none => simp [book_appointment] at h
  | some dt =>
    simp only [book_appointment] at h
    by_cases h1 : (!(is_during_business_hours dt)) = true
    · rw [if_pos h1] at h; simp at h
    · rw [if_neg h1] at h
      by_cases h2 : toMin dt < toMin now
      · rw [if_pos h2] at h; simp at h
      · rw [if_neg h2] at h
        by_cases h3 : (!confirmed) = true
        · rw [if_pos h3] at h; simp at h
        · rw [if_neg h3] at h
          by_cases h4 : (pyLower recipient == "self" &&
              !(is_slot_available now dt appts)) = true
          · rw [if_pos h4] at h; simp at h
          · rw [if_neg h4] at h
            simp only [Option.some.injEq] at h
            subst h
            have hbus : is_during_business_hours dt = true := by
              simpa using h1
            have hhour : OPENING_HOUR ≤ dt.hour ∧ dt.hour < CLOSING_HOUR := by
              unfold is_during_business_hours at hbus
              simp only [Bool.and_eq_true, decide_eq_true_eq] at hbus
              exact hbus
            refine ⟨⟨hhour.1, hhour.2, ?_⟩, fun hself => ?_⟩
            · show toMin now ≤ toMin dt
              omega
            · show is_valid_appointment_time now dt = true
              have havail : is_slot_available now dt appts = true := by
                cases hx : is_slot_available now dt appts with
                | true => rfl
                | false =>
                  refine absurd ?_ h4
                  rw [hself, hx]
                  simp
              unfold is_slot_available at havail
              rw [Bool.and_eq_true] at havail
              exact havail.1

/-- Witness for C2 (amended) at the scenario from the spec: Tuesday
2025-06-03 at 15:00 booked for "self". -/
theorem C2_witness :
    (OPENING_HOUR ≤ (Appt.mk "p" ⟨2025, 6, 3, 15, 0⟩ "self").start.hour ∧
      (Appt.mk "p" ⟨2025, 6, 3, 15, 0⟩ "self").start.hour < CLOSING_HOUR ∧
      toMin nowMon ≤ toMin (Appt.mk "p" ⟨2025, 6, 3, 15, 0⟩ "self").start) ∧
    (pyLower "self" = "self" →
      is_valid_appointment_time nowMon (Appt.mk "p" ⟨2025, 6, 3, 15, 0⟩ "self").start
        = true) :=
  C2_amended_commit_validity nowMon "p" (some ⟨2025, 6, 3, 15, 0⟩) "self" true "" []
    ⟨"p", ⟨2025, 6, 3, 15, 0⟩, "self"⟩ (by decide)

/-- The ten stored appointments of customer "p" used by the cap
scenarios. -/
def appts10 : List Appt :=
  [⟨"p", ⟨2025, 6, 3, 10, 0⟩, "self"⟩, ⟨"p", ⟨2025, 6, 3, 10, 30⟩, "self"⟩,
   ⟨"p", ⟨2025, 6, 3, 11, 0⟩, "self"⟩, ⟨"p", ⟨2025, 6, 3, 11, 30⟩, "self"⟩,
   ⟨"p", ⟨2025, 6, 3, 12, 0⟩, "self"⟩, ⟨"p", ⟨2025, 6, 3, 12, 30⟩, "self"⟩,
   ⟨"p", ⟨2025, 6, 3, 13, 0⟩, "self"⟩, ⟨"p", ⟨2025, 6, 3, 13, 30⟩, "self"⟩,
   ⟨"p", ⟨2025, 6, 3, 14, 0⟩, "self"⟩, ⟨"p", ⟨2025, 6, 3, 14, 30⟩, "self"⟩]

/-- Claim C3 fails on the code: a customer already holding ten upcoming
appointments still gets a successful commit from the booking pipeline —
`book_appointment` contains no cap check at all, before or after the
confirmation gate. -/
theorem C3_counterexample :
    10 ≤ (appts10.filter (fun a => a.phone == "p")).length ∧
    (book_appointment nowMon "p" (some ⟨2025, 6, 4, 10, 0⟩) "self" true ""
        appts10).status = .booked ⟨2025, 6, 4, 10, 0⟩ := by
  decide

/-- Claim C3, amended: the 10-appointment cap exists only as the
agent-side tool `count_user_appointments`, which reports `LIMIT REACHED`
whenever the stored appointment count of the customer is at least 10; the
deterministic booking pipeline never consults it. -/
theorem C3_amended_cap_only_in_agent_tool
    (phone : String) (appts : List Appt)
    (h : 10 ≤ (appts.filter (fun a => a.phone == phone)).length) :
    count_user_appointments phone appts
      = .limitReached (appts.filter (fun a => a.phone == phone)).length := by
  unfold count_user_appointments
  have hne : ¬((appts.filter (fun a => a.phone == phone)).isEmpty = true) := by
    intro he
    rw [List.isEmpty_iff] at he
    rw [he] at h
    simp at h
  rw [if_neg hne, if_pos h]

/-- Witness for C3 (amended) at the concrete ten-appointment store. -/
theorem C3_witness :
    count_user_appointments "p" appts10
      = .limitReached (appts10.filter (fun a => a.phone == "p")).length :=
  C3_amended_cap_only_in_agent_tool "p" appts10 (by decide)

/-- Claim C4 fails on the code: a confirmed booking for "brother" at
the exact start time of an existing appointment on that day (absolute
difference 0 < 30 minutes) is committed, not rejected — the conflict
check is skipped entirely for non-"self" recipients. -/
theorem C4_counterexample :
    (book_appointment nowMon "p" (some ⟨2025, 6, 3, 14, 0⟩) "brother" true ""
        [⟨"q", ⟨2025, 6, 3, 14, 0⟩, "self"⟩]).status = .booked ⟨2025, 6, 3, 14, 0⟩ ∧
    ((toMin (⟨2025, 6, 3, 14, 0⟩ : CalDT) : Int) -
        (toMin (⟨2025, 6, 3, 14, 0⟩ : CalDT) : Int)).natAbs * 60 <
      APPOINTMENT_DURATION * 60 := by
  decide

/-- Claim C4, amended: for a non-"self" recipient the slot-conflict
check is skipped entirely, so every confirmed request that passes the
hour-range and past gates commits — regardless of the appointment
store contents. -/
theorem C4_amended_nonself_skips_conflict_check
    (now : CalDT) (phone : String) (dt : CalDT) (recipient customerName : String)
    (appts : List Appt)
    (hrec : ¬(pyLower recipient = "self"))
    (hbus : is_during_business_hours dt = true)
    (hpast : ¬(toMin dt < toMin now)) :
    book_appointment now phone (some dt) recipient true customerName appts
      = ⟨.booked dt, !(customerName == ""), some ⟨phone, dt, recipient⟩,
          true, true, true⟩ := by
  simp [book_appointment, hbus, hpast, hrec]

/-- Witness for C4 (amended): "brother" booked straight into a slot the
store already holds. -/
theorem C4_witness :
    book_appointment nowMon "p" (some ⟨2025, 6, 4, 11, 0⟩) "brother" true "Sam"
        [⟨"p", ⟨2025, 6, 4, 11, 0⟩, "self"⟩]
      = ⟨.booked ⟨2025, 6, 4, 11, 0⟩, !("Sam" == ""),
          some ⟨"p", ⟨2025, 6, 4, 11, 0⟩, "brother"⟩, true, true, true⟩ :=
  C4_amended_nonself_skips_conflict_check nowMon "p" ⟨2025, 6, 4, 11, 0⟩ "brother"
    "Sam" [⟨"p", ⟨2025, 6, 4, 11, 0⟩, "self"⟩] (by decide) (by decide) (by decide)

/-- Claim C5 fails on the code: an unconfirmed request that carries a
customer name produces the needs-confirmation result *and* a customer
record write — `save_customer_info` runs before the confirmation gate. -/
theorem C5_counterexample :
    (book_appointment nowMon "p" (some ⟨2025, 6, 3, 15, 0⟩) "self" false "Bob"
        []).status = .needsConfirmation ⟨2025, 6, 3, 15, 0⟩ ∧
    (book_appointment nowMon "p" (some ⟨2025, 6, 3, 15, 0⟩) "self" false "Bob"
        []).customerSaved = true := by
  decide

/-- Claim C5, amended: an unconfirmed request that resolves and passes
the business-hours and past gates returns needs-confirmation carrying
the resolved datetime, with no appointment insert, no reminders and no
notifications — but with the customer-record write whenever a customer
name was supplied. -/
theorem C5_amended_confirmation_gate_effects
    (now : CalDT) (phone : String) (dt : CalDT) (recipient customerName : String)
    (appts : List Appt)
    (hbus : is_during_business_hours dt = true)
    (hpast : ¬(toMin dt < toMin now)) :
    book_appointment now phone (some dt) recipient false customerName appts
      = ⟨.needsConfirmation dt, !(customerName == ""), none, false, false, false⟩ := by
  simp [book_appointment, hbus, hpast]

/-- Witness for C5 (amended) at the concrete unconfirmed request with a
supplied name. -/
theorem C5_witness :
    book_appointment nowMon "p" (some ⟨2025, 6, 3, 15, 0⟩) "self" false "Bob" []
      = ⟨.needsConfirmation ⟨2025, 6, 3, 15, 0⟩, !("Bob" == ""), none,
          false, false, false⟩ :=
  C5_amended_confirmation_gate_effects nowMon "p" ⟨2025, 6, 3, 15, 0⟩ "self" "Bob"
    [] (by decide) (by decide)

/-- Four alternating filters collapse to two (filters commute and are
idempotent pointwise). -/
theorem filter_comm_idem {α : Type} (p q : α → Bool) (l : List α) :
    List.filter p (List.filter q (List.filter p (List.filter q l)))
      = List.filter p (List.filter q l) := by
  simp only [List.filter_filter]
  apply List.filter_congr
  intro a _
  cases p a <;> cases q a <;> rfl

/-- Claim C8 fails on the code: reminder jobs are keyed by
(kind, phone, appointment timestamp), not by appointment id, so
re-planning the same appointment after a reschedule moved its start
(here from minute 3000 to minute 4000, with now = 0) leaves two
24h-before jobs for the one appointment. -/
theorem C8_counterexample :
    ((schedule_reminders 0 "p" 4000 (schedule_reminders 0 "p" 3000 [])).filter
      (fun j => j.kind == RemKind.r24h)).length = 2 := by
  decide

/-- Claim C8, amended: re-running reminder scheduling for the same
customer and the *same* appointment start time is idempotent (the jobs
are replaced, not duplicated); only a changed start time duplicates. -/
theorem C8_amended_idempotent_for_same_time
    (now : Int) (phone : String) (t : Int) (jobs : List RemJob) :
    schedule_reminders now phone t (schedule_reminders now phone t jobs)
      = schedule_reminders now phone t jobs := by
  unfold schedule_reminders putReminder
  have hk24 : (RemKind.r24h == RemKind.r24h) = true := rfl
  have hk1 : (RemKind.r1h == RemKind.r1h) = true := rfl
  have hx24 : (RemKind.r1h == RemKind.r24h) = false := rfl
  have hx1 : (RemKind.r24h == RemKind.r1h) = false := rfl
  by_cases h24 : (t - 1440 > now)
  all_goals by_cases h1 : (t - 60 > now)
  all_goals simp [h24, h1, List.filter_append, hk24, hk1, hx24, hx1,
    filter_comm_idem]
  all_goals
    first
    | rfl
    | (apply List.filter_congr
       intro a _
       cases (a.kind == RemKind.r1h) <;> cases (a.kind == RemKind.r24h) <;>
         cases (a.phone == phone) <;> cases (a.apptTime == t) <;> rfl)

theorem nextDay_year_le (c : CalDT) : (nextDay c).year ≤ c.year + 1 := by
  unfold nextDay
  split
  · dsimp only
    omega
  · split <;> dsimp only <;> omega

theorem fixYear_year_le (now p : CalDT)
    (hp : p.day ≤ daysInMonth now.year p.month ∨
      (p.month = 2 ∧ p.day = 29 ∧ ¬(now.year % 4 = 0))) :
    (fixYear now p).year ≤ now.year + 1 := by
  unfold fixYear
  split
  · split
    · dsimp only
      omega
    · split
      · dsimp only
        omega
      · rename_i houter hday hfeb
        rcases hp with hp | hp
        · exact absurd hp hday
        · exact absurd hp hfeb
  · rename_i houter
    omega

theorem fixMonth_year (now p : CalDT) : (fixMonth now p).year = p.year := by
  unfold fixMonth
  split
  · split
    · dsimp only
      split <;> rfl
    · rfl
  · rfl

theorem fixNoon_year (s : String) (p : CalDT) : (fixNoon s p).year = p.year := by
  unfold fixNoon
  split <;> rfl

theorem fixPast_year_le (now p : CalDT) (h : p.year ≤ now.year + 1) (r : CalDT)
    (hr : fixPast now p = some r) : r.year ≤ now.year + 1 := by
  unfold fixPast at hr
  dsimp only at hr
  split at hr
  · split at hr
    · split at hr
      · simp only [Option.some.injEq] at hr
        subst hr
        show (addDays (dateOf now) 1).year ≤ now.year + 1
        have := nextDay_year_le (dateOf now)
        simpa [addDays, dateOf] using this
      · simp only [Option.some.injEq] at hr
        subst hr
        omega
    · split at hr
      · split at hr
        · split at hr
          all_goals
            (split at hr
             · simp only [Option.some.injEq] at hr
               subst hr
               dsimp only
               omega
             · split at hr
               · simp only [Option.some.injEq] at hr
                 subst hr
                 dsimp only
                 omega
               · exact Option.noConfusion hr)
        · simp only [Option.some.injEq] at hr
          subst hr
          omega
      · simp only [Option.some.injEq] at hr
        subst hr
        omega
  · simp only [Option.some.injEq] at hr
    subst hr
    omega

/-- Claim C6 fails on the code: the year clamp lives only in the
dateutil-fallback branch; an explicit ISO date keeps its stated year, so
`parse_datetime("2099-12-25")` resolves to year 2099 with the reference
time in 2025 — more than one year ahead. -/
theorem C6_counterexample :
    parse_datetime none ⟨2025, 10, 12, 9, 0⟩ "2099-12-25"
      = some ⟨2099, 12, 25, 12, 0⟩ ∧ (2025 : Nat) + 1 < 2099 := by
  decide

/-- Claim C6, amended: the no-more-than-one-year-ahead guarantee holds
only for the dateutil fuzzy-fallback branch: whenever its correction
pipeline returns a value (and the `replace(year=current_year)` step can
run, i.e. the day fits that month in the current year or the
Feb-29-to-Feb-28 repair applies), the resulting year is at most one more
than the current year.  Dates from the ISO and numeric branches keep
their stated year. -/
theorem C6_amended_fallback_year_clamped
    (now : CalDT) (s : String) (p : CalDT)
    (hp : p.day ≤ daysInMonth now.year p.month ∨
      (p.month = 2 ∧ p.day = 29 ∧ ¬(now.year % 4 = 0)))
    (r : CalDT) (hr : dateutilCorrect now s p = some r) :
    r.year ≤ now.year + 1 := by
  unfold dateutilCorrect at hr
  refine fixPast_year_le now _ ?_ r hr
  rw [fixNoon_year, fixMonth_year]
  exact fixYear_year_le now p hp

/-- Witness for C6 (amended): a fuzzy parse that detected year 2030 is
clamped back and, after the month and past corrections, lands on
2025-11-10. -/
theorem C6_witness :
    (⟨2025, 11, 10, 12, 0⟩ : CalDT).year ≤ (⟨2025, 10, 12, 9, 0⟩ : CalDT).year + 1 :=
  C6_amended_fallback_year_clamped ⟨2025, 10, 12, 9, 0⟩ "xyzzy" ⟨2030, 5, 10, 0, 0⟩
    (by decide) ⟨2025, 11, 10, 12, 0⟩ (by decide)

theorem nextOffset_spec (i w : Nat) (hi : i < 7) (hw : w < 7) :
    1 ≤ nextOffset i w ∧ nextOffset i w ≤ 7 ∧ (nextOffset i w = 7 ↔ w = i) := by
  unfold nextOffset
  dsimp only
  split <;> omega

/-- Claim C7 fails on the code: the weekday branch of `parse_datetime` adds
seven days to *any* a "next weekday-name" request whose offset is below
seven, so with `now` a Thursday (2025-06-05), "next friday" resolves to
2025-06-13 — eight days ahead, skipping the nearest Friday and
exceeding the claimed seven-day bound.  (The agent-side resolver
`calculate_date` does satisfy the bound; see the amended theorem.) -/
theorem C7_counterexample :
    parse_datetime none ⟨2025, 6, 5, 9, 0⟩ "next friday" = some ⟨2025, 6, 13, 12, 0⟩ ∧
    toDayNumber ⟨2025, 6, 13, 12, 0⟩ = toDayNumber ⟨2025, 6, 5, 9, 0⟩ + 8 ∧
    ¬((8 : Nat) ≤ 7) := by
  decide

/-- Claim C7, amended: the agent-side resolver `calculate_date` does
satisfy the property — for every valid weekday name and every reference
time, a "next weekday-name" resolves strictly more than 0 and at most 7
days ahead, hitting exactly 7 precisely when today already is that
weekday; the service-side `parse_datetime` instead lands up to 13 days
ahead. -/
theorem C7_amended_calculate_date_next_weekday
    (now : CalDT) (name : String) (hmem : name ∈ dayNames) :
    ∃ k, calculate_date now ("next " ++ name) = toDayNumber (dateOf now) + k ∧
      1 ≤ k ∧ k ≤ 7 ∧ (k = 7 ↔ weekdayOf (dateOf now) = dayNames.indexOf name) := by
  have h7 : toDayNumber (dateOf now) % 7 < 7 := Nat.mod_lt _ (by omega)
  fin_cases hmem
  · exact ⟨_, rfl, nextOffset_spec 0 _ (by omega) h7⟩
  · exact ⟨_, rfl, nextOffset_spec 1 _ (by omega) h7⟩
  · exact ⟨_, rfl, nextOffset_spec 2 _ (by omega) h7⟩
  · exact ⟨_, rfl, nextOffset_spec 3 _ (by omega) h7⟩
  · exact ⟨_, rfl, nextOffset_spec 4 _ (by omega) h7⟩
  · exact ⟨_, rfl, nextOffset_spec 5 _ (by omega) h7⟩
  · exact ⟨_, rfl, nextOffset_spec 6 _ (by omega) h7⟩

/-- Witness for C7 (amended) at "friday" and the fixed Thursday. -/
theorem C7_witness :
    ∃ k, calculate_date ⟨2025, 6, 5, 9, 0⟩ ("next " ++ "friday")
        = toDayNumber (dateOf ⟨2025, 6, 5, 9, 0⟩) + k ∧
      1 ≤ k ∧ k ≤ 7 ∧
      (k = 7 ↔ weekdayOf (dateOf ⟨2025, 6, 5, 9, 0⟩) = dayNames.indexOf "friday") :=
  C7_amended_calculate_date_next_weekday ⟨2025, 6, 5, 9, 0⟩ "friday" (by decide)

/-- Claim C9 fails on the code: for an expression matching no rule, the
service-side resolver `parse_datetime` (whose dateutil fallback raises,
here modelled by `fuzzy = none`) returns `None` — it neither resolves
to tomorrow nor flags anything. -/
theorem C9_counterexample :
    parse_datetime none ⟨2025, 6, 5, 9, 0⟩ "hello" = none := by
  decide

/-- Claim C9, amended: the agent-side resolver `calculate_date` does
fall back to `referenceNow + 1 day` for expressions matching none of
its rules, but the result carries no fallback marker of any kind — it
is literally identical to the resolution of "tomorrow", so the caller
cannot distinguish the degraded result (the service-side
`parse_datetime` returns `None` instead). -/
theorem C9_amended_fallback_unmarked
    (now : CalDT) (expr : String)
    (h1 : (pyLower expr == "tomorrow") = false)
    (h2 : (pyLower expr == "today") = false)
    (h3 : (containsStr "in" (pyLower expr) && containsStr "days" (pyLower expr)) = false)
    (h4 : pyStartsWith (pyLower expr) "next " = false)
    (h5 : monthNames.findIdx? (fun m => containsStr m (pyLower expr)) = none) :
    calculate_date now expr = toDayNumber (dateOf now) + 1 ∧
    calculate_date now expr = calculate_date now "tomorrow" := by
  have key : calculate_date now expr = toDayNumber (dateOf now) + 1 := by
    unfold calculate_date
    simp only [h1, h2, h3, h4, h5, Bool.false_eq_true, if_false]
  exact ⟨key, by rw [key]; rfl⟩

/-- Witness for C9 (amended) at a rule-free expression. -/
theorem C9_witness :
    calculate_date ⟨2025, 6, 5, 9, 0⟩ "hello" = toDayNumber (dateOf ⟨2025, 6, 5, 9, 0⟩) + 1 ∧
    calculate_date ⟨2025, 6, 5, 9, 0⟩ "hello" = calculate_date ⟨2025, 6, 5, 9, 0⟩ "tomorrow" :=
  C9_amended_fallback_unmarked ⟨2025, 6, 5, 9, 0⟩ "hello" (by decide) (by decide)
    (by decide) (by decide) (by decide)

end Barber
